import Mathlib

/-
Verification of the coresched core-scheduling cookie tool:
a shallow embedding of src/coresched.c.

The kernel prctl(PR_SCHED_CORE, ...) interface is modelled as a `Kernel`
record of response functions; each prctl call site records a `KernelCall`
event.  The status an operation returns is the value the source stores in
`prctl_errno` (the kernel's reported status, i.e. the negated errno under
the raw syscall convention the program and its spec assume).  `error(st, ...)`
with non-zero `st` exits with `st`; `ProcResult.exit = some c` records the
argument of the final `exit`, and `exit = none` means the process image was
replaced by a successful `execvp`.
-/

namespace Coresched

/-- Cookie scope: SCHED_CORE_SCOPE_PID / _TGID / _PGID from coresched.c. -/
inductive Scope where
  | pid
  | tgid
  | pgid
deriving DecidableEq

/-- SCHED_CORE_CMD_GET / _CREATE / _COPY / _EXEC. -/
inductive Cmd where
  | get
  | create
  | copy
  | exec
deriving DecidableEq

/-- struct args from coresched.c (pid_t fields are 32-bit ints; 0 = not supplied). -/
structure Args where
  from_pid : Int
  to_pid : Int
  type : Scope
  cmd : Cmd
  exec_argv_offset : Nat
deriving DecidableEq

/-- The four prctl(PR_SCHED_CORE, ...) actions. -/
inductive KernelAction where
  | get
  | create
  | pull
  | push
deriving DecidableEq

/-- One prctl call: action, pid argument and scope argument. -/
structure KernelCall where
  action : KernelAction
  pid : Int
  scope : Scope
deriving DecidableEq

/-- Kernel model: the status (and, for GET, the cookie written through the
pointer) each prctl call returns. -/
structure Kernel where
  getRes : Int → Scope → Int × Nat
  createRes : Int → Scope → Int
  pullRes : Int → Scope → Int
  pushRes : Int → Scope → Int

/-- Observable events of one process: prctl calls, stdout writes (printf),
stderr writes (fprintf(stderr) and glibc error()), and an execvp attempt. -/
inductive Event where
  | kcall (c : KernelCall)
  | out (s : String)
  | err (s : String)
  | exec (argv : List String)
deriving DecidableEq

/-- Outcome of one process: its ordered event list and its exit.
`exit = some c` means exit(c) was called (main falling through = exit 0);
`exit = none` means execvp succeeded and the image was replaced. -/
structure ProcResult where
  events : List Event
  exit : Option Int
deriving DecidableEq

/-- Whole-invocation outcome: the main (parent) process and the forked
child, when one exists. -/
structure Outcome where
  main : ProcResult
  child : Option ProcResult
deriving DecidableEq

def exitCode (p : ProcResult) : Int := p.exit.getD 0

def kernelCalls (es : List Event) : List KernelCall :=
  es.filterMap fun e =>
    match e with
    | Event.kcall c => some c
    | _ => none

def isErrEvent (e : Event) : Bool :=
  match e with
  | Event.err _ => true
  | _ => false

/-- Lowercase hexadecimal rendering of an unsigned long, as printf %lx. -/
def hexStr (n : Nat) : String := String.mk (Nat.toDigits 16 n)

def get_fail_msg (pid : Int) : String :=
  "Failed to get cookie from PID " ++ toString pid

def create_fail_msg (pid : Int) : String :=
  "Failed to create cookie for PID " ++ toString pid

def pull_fail_msg (pid : Int) : String :=
  "Failed to pull cookie from PID " ++ toString pid

def push_fail_msg (pid : Int) : String :=
  "Failed to push cookie to PID " ++ toString pid

def copy_fail_msg (f t : Int) : String :=
  "Failed to copy cookie from " ++ toString f ++ " to " ++ toString t

def spawn_msg (pid : Int) (cookie : Nat) : String :=
  "spawned pid " ++ toString pid ++ " with core scheduling cookie 0x" ++
    hexStr cookie ++ "\n"

/-- core_sched_get_cookie: prctl GET with hard-coded SCHED_CORE_SCOPE_PID;
on non-zero status, error(st, -st, ...) exits with st. -/
def core_sched_get_cookie (k : Kernel) (from_pid : Int) :
    List Event × Except Int Nat :=
  let r := k.getRes from_pid Scope.pid
  if r.1 ≠ 0 then
    ([Event.kcall ⟨KernelAction.get, from_pid, Scope.pid⟩,
      Event.err (get_fail_msg from_pid)], Except.error r.1)
  else
    ([Event.kcall ⟨KernelAction.get, from_pid, Scope.pid⟩], Except.ok r.2)

/-- core_sched_create_cookie: prctl CREATE with the requested scope. -/
def core_sched_create_cookie (k : Kernel) (from_pid : Int) (type : Scope) :
    List Event × Except Int Unit :=
  let st := k.createRes from_pid type
  if st ≠ 0 then
    ([Event.kcall ⟨KernelAction.create, from_pid, type⟩,
      Event.err (create_fail_msg from_pid)], Except.error st)
  else
    ([Event.kcall ⟨KernelAction.create, from_pid, type⟩], Except.ok ())

/-- core_sched_pull_cookie: prctl SHARE_FROM with hard-coded SCOPE_PID. -/
def core_sched_pull_cookie (k : Kernel) (from_pid : Int) :
    List Event × Except Int Unit :=
  let st := k.pullRes from_pid Scope.pid
  if st ≠ 0 then
    ([Event.kcall ⟨KernelAction.pull, from_pid, Scope.pid⟩,
      Event.err (pull_fail_msg from_pid)], Except.error st)
  else
    ([Event.kcall ⟨KernelAction.pull, from_pid, Scope.pid⟩], Except.ok ())

/-- core_sched_push_cookie: prctl SHARE_TO with the requested scope. -/
def core_sched_push_cookie (k : Kernel) (to_pid : Int) (type : Scope) :
    List Event × Except Int Unit :=
  let st := k.pushRes to_pid type
  if st ≠ 0 then
    ([Event.kcall ⟨KernelAction.push, to_pid, type⟩,
      Event.err (push_fail_msg to_pid)], Except.error st)
  else
    ([Event.kcall ⟨KernelAction.push, to_pid, type⟩], Except.ok ())

/-- main's SCHED_CORE_CMD_GET branch (coresched.c lines 272-282):
get the cookie, then printf it (non-zero) or printf the no-cookie line
and exit(1). -/
def run_get (k : Kernel) (args : Args) : ProcResult :=
  match core_sched_get_cookie k args.from_pid with
  | (es, Except.error st) => ⟨es, some st⟩
  | (es, Except.ok cookie) =>
    if cookie ≠ 0 then
      ⟨es ++ [Event.out ("core scheduling cookie of pid " ++
        toString args.from_pid ++ " is 0x" ++ hexStr cookie ++ "\n")], some 0⟩
    else
      ⟨es ++ [Event.out ("pid " ++ toString args.from_pid ++
        " doesn't have a core scheduling cookie\n")], some 1⟩

/-- main's SCHED_CORE_CMD_CREATE branch. -/
def run_create (k : Kernel) (args : Args) : ProcResult :=
  match core_sched_create_cookie k args.from_pid args.type with
  | (es, Except.error st) => ⟨es, some st⟩
  | (es, Except.ok _) => ⟨es, some 0⟩

/-- The child of core_sched_copy_cookie: pull from the source, then push to
the destination; each failure exits with the kernel status. -/
def copy_child (k : Kernel) (args : Args) : ProcResult :=
  match core_sched_pull_cookie k args.from_pid with
  | (es1, Except.error st) => ⟨es1, some st⟩
  | (es1, Except.ok _) =>
    match core_sched_push_cookie k args.to_pid args.type with
    | (es2, Except.error st) => ⟨es1 ++ es2, some st⟩
    | (es2, Except.ok _) => ⟨es1 ++ es2, some 0⟩

/-- waitpid status of a child that exited with code c: the low byte of c
shifted left by 8. -/
def waitStatus (c : Int) : Int := c % 256 * 256

/-- The exit status the OS reports for a process that called exit(c): only
the low byte of c is observable. -/
def exitStatusByte (c : Int) : Int := c % 256

/-- The parent of core_sched_copy_cookie: wait for the child; a non-zero
wait status becomes error(status, status, "Failed to copy cookie ...").
The recorded exit is the argument the source passes to exit(); the status
the OS reports for it is its exitStatusByte. -/
def copy_parent (args : Args) (status : Int) : ProcResult :=
  if status ≠ 0 then
    ⟨[Event.err (copy_fail_msg args.from_pid args.to_pid)], some status⟩
  else
    ⟨[], some 0⟩

/-- core_sched_copy_cookie (coresched.c lines 96-117): fork; child pulls
then pushes; parent waits and propagates a non-zero wait status. -/
def core_sched_copy_cookie (k : Kernel) (args : Args) (forkOk : Bool) :
    Outcome :=
  if forkOk then
    let c := copy_child k args
    ⟨copy_parent args (waitStatus (exitCode c)), some c⟩
  else
    ⟨⟨[Event.err "Failed to spawn cookie eating child"], some (-1)⟩, none⟩

/-- Tail of the exec child after a successful pull/create: get the cookie of
gpid, print the spawn line to stderr, then execvp. -/
def exec_child_tail (k : Kernel) (gpid : Int) (es1 : List Event)
    (argv2 : List String) (childPid : Int) (execOk : Bool) : ProcResult :=
  match core_sched_get_cookie k gpid with
  | (es2, Except.error st) => ⟨es1 ++ es2, some st⟩
  | (es2, Except.ok cookie) =>
    if execOk then
      ⟨es1 ++ es2 ++ [Event.err (spawn_msg childPid cookie),
        Event.exec argv2], none⟩
    else
      ⟨es1 ++ es2 ++ [Event.err (spawn_msg childPid cookie),
        Event.exec argv2, Event.err "Failed to spawn process"], some (-1)⟩

/-- The child of core_sched_exec_with_cookie: pull from the source if one
was given, otherwise create a fresh cookie for getpid(); then report the
cookie and exec (coresched.c lines 135-150). -/
def exec_child (k : Kernel) (args : Args) (argv2 : List String)
    (childPid : Int) (execOk : Bool) : ProcResult :=
  if args.from_pid ≠ 0 then
    match core_sched_pull_cookie k args.from_pid with
    | (es1, Except.error st) => ⟨es1, some st⟩
    | (es1, Except.ok _) =>
      exec_child_tail k args.from_pid es1 argv2 childPid execOk
  else
    match core_sched_create_cookie k childPid args.type with
    | (es1, Except.error st) => ⟨es1, some st⟩
    | (es1, Except.ok _) =>
      exec_child_tail k childPid es1 argv2 childPid execOk

/-- core_sched_exec_with_cookie (coresched.c lines 119-154): reject a
missing program vector, fork, run the exec child; the parent exits 0
immediately without waiting. -/
def core_sched_exec_with_cookie (k : Kernel) (args : Args)
    (argv : List String) (childPid : Int) (forkOk execOk : Bool) : Outcome :=
  if args.exec_argv_offset = 0 then
    ⟨⟨[Event.err "exec has to be followed by a program name to be executed. See '--help' for more info.\n"],
      some 1⟩, none⟩
  else if forkOk then
    ⟨⟨[], some 0⟩,
      some (exec_child k args (argv.drop args.exec_argv_offset) childPid execOk)⟩
  else
    ⟨⟨[Event.err "Failed to spawn cookie eating child"], some (-1)⟩, none⟩

inductive ValidationResult where
  | ok
  | error (msg : String)
deriving DecidableEq

def copying_requires_dest_msg : String :=
  "Copying a core scheduling cookie requires a destination PID"

def retrieve_requires_source_msg : String :=
  "Retrieving a core scheduling cookie requires a source PID"

/-- verify_arguments (coresched.c lines 160-171). -/
def verify_arguments (args : Args) : ValidationResult :=
  if args.from_pid ≠ 0 ∨ args.cmd = Cmd.exec then
    if args.cmd = Cmd.copy ∧ args.to_pid = 0 then
      ValidationResult.error copying_requires_dest_msg
    else
      ValidationResult.ok
  else
    ValidationResult.error retrieve_requires_source_msg

/-- The whole invocation after option parsing: verify_arguments (run by
parse_opt at ARGP_KEY_SUCCESS; a failure is argp_error, which prints the
message and exits with the argp default status 64 before any dispatch),
then main's command switch. -/
def run (k : Kernel) (args : Args) (argv : List String) (childPid : Int)
    (forkOk execOk : Bool) : Outcome :=
  match verify_arguments args with
  | ValidationResult.error msg => ⟨⟨[Event.err msg], some 64⟩, none⟩
  | ValidationResult.ok =>
    match args.cmd with
    | Cmd.get => ⟨run_get k args, none⟩
    | Cmd.create => ⟨run_create k args, none⟩
    | Cmd.copy => core_sched_copy_cookie k args forkOk
    | Cmd.exec => core_sched_exec_with_cookie k args argv childPid forkOk execOk

/-- 64-bit long upper bound, 2^63 - 1 (strtol saturates here on overflow). -/
def LONG_MAX : Int := 9223372036854775807

/-- 64-bit long lower bound, -2^63. -/
def LONG_MIN : Int := -9223372036854775808

/-- C-locale isdigit. -/
def isDigitC (c : Char) : Bool := decide (48 ≤ c.toNat ∧ c.toNat ≤ 57)

/-- C-locale isspace: space, \t, \n, \v, \f, \r. -/
def isSpaceC (c : Char) : Bool :=
  decide (c.toNat = 32 ∨ (9 ≤ c.toNat ∧ c.toNat ≤ 13))

/-- Base-10 value of a digit run. -/
def digitsVal (l : List Char) : Nat :=
  l.foldl (fun a c => a * 10 + (c.toNat - 48)) 0

/-- strtol's optional single leading sign. -/
def stripSign (l : List Char) : Bool × List Char :=
  match l with
  | [] => (false, [])
  | c :: t =>
    if c = '-' then (true, t)
    else if c = '+' then (false, t)
    else (false, c :: t)

/-- strtol overflow saturation to the long range. -/
def clampLong (v : Int) : Int := max LONG_MIN (min LONG_MAX v)

/-- The long-to-pid_t (32-bit int) conversion: two's-complement wraparound
(the residue mod 2^32, shifted into [-2^31, 2^31)). -/
def toInt32 (v : Int) : Int :=
  if v % 4294967296 < 2147483648 then v % 4294967296
  else v % 4294967296 - 4294967296

/-- Result of parse_pid: success, the argp_error
"PID %d cannot be negative" (carrying the parsed value), or the argp_error
"Failed to parse pid %s" (carrying the offending input). -/
inductive PidParse where
  | ok (pid : Int)
  | negativeErr (pid : Int)
  | failedParse (str : String)
deriving DecidableEq

/-- parse_pid (coresched.c lines 173-189): strtol in base 10 (skip C-locale
whitespace, optional sign, saturating digit run), require full consumption
with at least one digit, convert to pid_t, reject negative results. -/
def parse_pid (s : String) : PidParse :=
  let afterWs := s.data.dropWhile isSpaceC
  let p := stripSign afterWs
  let ds := p.2.takeWhile isDigitC
  let rest := p.2.dropWhile isDigitC
  if ds = [] ∨ rest ≠ [] then PidParse.failedParse s
  else
    let v : Int := if p.1 then -(digitsVal ds : Int) else (digitsVal ds : Int)
    let pid := toInt32 (clampLong v)
    if pid < 0 then PidParse.negativeErr pid else PidParse.ok pid

/-! Concrete fixtures used below. -/

/-- Kernel in which every operation succeeds and no task has a cookie. -/
def kTriv : Kernel := ⟨fun _ _ => (0, 0), fun _ _ => 0, fun _ _ => 0, fun _ _ => 0⟩

/-- Kernel in which every operation succeeds and GET reports cookie 7. -/
def kCookie7 : Kernel := ⟨fun _ _ => (0, 7), fun _ _ => 0, fun _ _ => 0, fun _ _ => 0⟩

/-- Kernel in which GET fails with status -3 (ESRCH negated). -/
def kGetFail : Kernel := ⟨fun _ _ => (-3, 0), fun _ _ => 0, fun _ _ => 0, fun _ _ => 0⟩

/-- Kernel in which PULL fails with status -3; everything else succeeds. -/
def kPullFail : Kernel := ⟨fun _ _ => (0, 7), fun _ _ => 0, fun _ _ => -3, fun _ _ => 0⟩

/-- Kernel in which PUSH fails with status -22; everything else succeeds. -/
def kPushFail : Kernel := ⟨fun _ _ => (0, 7), fun _ _ => 0, fun _ _ => 0, fun _ _ => -22⟩

/-- Kernel in which CREATE fails with status -22; everything else succeeds. -/
def kCreateFail : Kernel := ⟨fun _ _ => (0, 7), fun _ _ => -22, fun _ _ => 0, fun _ _ => 0⟩

def argsGet1234 : Args := ⟨1234, 0, Scope.pgid, Cmd.get, 0⟩
def argsGetTgid : Args := ⟨9, 0, Scope.tgid, Cmd.get, 0⟩
def argsCreate : Args := ⟨44, 0, Scope.pgid, Cmd.create, 0⟩
def argsCopy : Args := ⟨100, 200, Scope.pgid, Cmd.copy, 0⟩
def argsCopyNoDest : Args := ⟨5, 0, Scope.pgid, Cmd.copy, 0⟩
def argsCopyNoSrc : Args := ⟨0, 7, Scope.pgid, Cmd.copy, 0⟩
def argsExecSrc : Args := ⟨100, 0, Scope.pgid, Cmd.exec, 1⟩
def argsExecNoSrc : Args := ⟨0, 0, Scope.pgid, Cmd.exec, 1⟩

/-! Characterization lemmas for the syscall adapter. -/

theorem core_sched_get_cookie_err (k : Kernel) (p : Int)
    (h : (k.getRes p Scope.pid).1 ≠ 0) :
    core_sched_get_cookie k p =
      ([Event.kcall ⟨KernelAction.get, p, Scope.pid⟩, Event.err (get_fail_msg p)],
        Except.error (k.getRes p Scope.pid).1) := by
  simp [core_sched_get_cookie, h]

theorem core_sched_get_cookie_ok (k : Kernel) (p : Int)
    (h : (k.getRes p Scope.pid).1 = 0) :
    core_sched_get_cookie k p =
      ([Event.kcall ⟨KernelAction.get, p, Scope.pid⟩],
        Except.ok (k.getRes p Scope.pid).2) := by
  simp [core_sched_get_cookie, h]

theorem core_sched_create_cookie_err (k : Kernel) (p : Int) (t : Scope)
    (h : k.createRes p t ≠ 0) :
    core_sched_create_cookie k p t =
      ([Event.kcall ⟨KernelAction.create, p, t⟩, Event.err (create_fail_msg p)],
        Except.error (k.createRes p t)) := by
  simp [core_sched_create_cookie, h]

theorem core_sched_create_cookie_ok (k : Kernel) (p : Int) (t : Scope)
    (h : k.createRes p t = 0) :
    core_sched_create_cookie k p t =
      ([Event.kcall ⟨KernelAction.create, p, t⟩], Except.ok ()) := by
  simp [core_sched_create_cookie, h]

theorem core_sched_pull_cookie_err (k : Kernel) (p : Int)
    (h : k.pullRes p Scope.pid ≠ 0) :
    core_sched_pull_cookie k p =
      ([Event.kcall ⟨KernelAction.pull, p, Scope.pid⟩, Event.err (pull_fail_msg p)],
        Except.error (k.pullRes p Scope.pid)) := by
  simp [core_sched_pull_cookie, h]

theorem core_sched_pull_cookie_ok (k : Kernel) (p : Int)
    (h : k.pullRes p Scope.pid = 0) :
    core_sched_pull_cookie k p =
      ([Event.kcall ⟨KernelAction.pull, p, Scope.pid⟩], Except.ok ()) := by
  simp [core_sched_pull_cookie, h]

theorem core_sched_push_cookie_err (k : Kernel) (p : Int) (t : Scope)
    (h : k.pushRes p t ≠ 0) :
    core_sched_push_cookie k p t =
      ([Event.kcall ⟨KernelAction.push, p, t⟩, Event.err (push_fail_msg p)],
        Except.error (k.pushRes p t)) := by
  simp [core_sched_push_cookie, h]

theorem core_sched_push_cookie_ok (k : Kernel) (p : Int) (t : Scope)
    (h : k.pushRes p t = 0) :
    core_sched_push_cookie k p t =
      ([Event.kcall ⟨KernelAction.push, p, t⟩], Except.ok ()) := by
  simp [core_sched_push_cookie, h]

/-- Validation passes for a copy command with both operands non-zero. -/
theorem verify_arguments_copy_ok (args : Args) (hc : args.cmd = Cmd.copy)
    (hf : args.from_pid ≠ 0) (ht : args.to_pid ≠ 0) :
    verify_arguments args = ValidationResult.ok := by
  simp [verify_arguments, hc, hf, ht]

/-- Validation passes for a get command with a non-zero source. -/
theorem verify_arguments_get_ok (args : Args) (hc : args.cmd = Cmd.get)
    (hf : args.from_pid ≠ 0) :
    verify_arguments args = ValidationResult.ok := by
  simp [verify_arguments, hc, hf]

/-- Validation passes for every exec command. -/
theorem verify_arguments_exec_ok (args : Args) (hc : args.cmd = Cmd.exec) :
    verify_arguments args = ValidationResult.ok := by
  simp [verify_arguments, hc]

/-- C1: a Copy invocation with a present, non-zero sourceTask but an absent
or zero destTask fails validation with the message "Copying a core
scheduling cookie requires a destination PID"; a Copy invocation with an
absent or zero sourceTask fails validation with the message "Retrieving a
core scheduling cookie requires a source PID"; in both cases the whole run
produces only the diagnostic (exit 64, the argp usage-error status) — no
kernel call is issued and no child is forked. -/
theorem copy_missing_operand_validation (k : Kernel) (args : Args)
    (argv : List String) (childPid : Int) (forkOk execOk : Bool)
    (hc : args.cmd = Cmd.copy) :
    (args.from_pid ≠ 0 → args.to_pid = 0 →
      verify_arguments args = ValidationResult.error copying_requires_dest_msg ∧
      run k args argv childPid forkOk execOk =
        ⟨⟨[Event.err copying_requires_dest_msg], some 64⟩, none⟩ ∧
      kernelCalls (run k args argv childPid forkOk execOk).main.events = []) ∧
    (args.from_pid = 0 →
      verify_arguments args = ValidationResult.error retrieve_requires_source_msg ∧
      run k args argv childPid forkOk execOk =
        ⟨⟨[Event.err retrieve_requires_source_msg], some 64⟩, none⟩ ∧
      kernelCalls (run k args argv childPid forkOk execOk).main.events = []) := by
  constructor
  · intro hf ht
    have hv : verify_arguments args = ValidationResult.error copying_requires_dest_msg := by
      simp [verify_arguments, hc, hf, ht]
    have hr : run k args argv childPid forkOk execOk =
        ⟨⟨[Event.err copying_requires_dest_msg], some 64⟩, none⟩ := by
      simp only [run, hv]
    exact ⟨hv, hr, by rw [hr]; simp [kernelCalls]⟩
  · intro hf
    have hv : verify_arguments args = ValidationResult.error retrieve_requires_source_msg := by
      simp [verify_arguments, hc, hf]
    have hr : run k args argv childPid forkOk execOk =
        ⟨⟨[Event.err retrieve_requires_source_msg], some 64⟩, none⟩ := by
      simp only [run, hv]
    exact ⟨hv, hr, by rw [hr]; simp [kernelCalls]⟩

/-- C1 witness: the two branches at concrete inputs (copy with source 5 and
no destination; copy with no source). -/
theorem copy_missing_operand_validation_witness :
    ((5 : Int) ≠ 0 ∧ argsCopyNoDest.to_pid = 0 ∧
      verify_arguments argsCopyNoDest = ValidationResult.error copying_requires_dest_msg ∧
      run kTriv argsCopyNoDest [] 0 true true =
        ⟨⟨[Event.err copying_requires_dest_msg], some 64⟩, none⟩) ∧
    (argsCopyNoSrc.from_pid = 0 ∧
      verify_arguments argsCopyNoSrc = ValidationResult.error retrieve_requires_source_msg ∧
      run kTriv argsCopyNoSrc [] 0 true true =
        ⟨⟨[Event.err retrieve_requires_source_msg], some 64⟩, none⟩) := by
  refine ⟨⟨by decide, rfl, ?_⟩, rfl, ?_⟩
  · have h := (copy_missing_operand_validation kTriv argsCopyNoDest [] 0 true true rfl).1
      (by decide) rfl
    exact ⟨h.1, h.2.1⟩
  · have h := (copy_missing_operand_validation kTriv argsCopyNoSrc [] 0 true true rfl).2 rfl
    exact ⟨h.1, h.2.1⟩

/-- Kernel-call trace of main's GET branch: exactly one GET, always at
SCHED_CORE_SCOPE_PID. -/
theorem run_get_kernelCalls (k : Kernel) (args : Args) :
    kernelCalls (run_get k args).events =
      [⟨KernelAction.get, args.from_pid, Scope.pid⟩] := by
  unfold run_get
  by_cases h : (k.getRes args.from_pid Scope.pid).1 = 0
  · rw [core_sched_get_cookie_ok k args.from_pid h]
    by_cases h2 : (k.getRes args.from_pid Scope.pid).2 = 0
    · simp [h2, kernelCalls]
    · simp [h2, kernelCalls]
  · rw [core_sched_get_cookie_err k args.from_pid h]
    simp [kernelCalls]

/-- C9: every Get invocation issues the kernel GET with Task-level scope
(SCHED_CORE_SCOPE_PID), whatever scope the user supplied in args.type: the
main process's kernel-call trace is exactly one GET at Scope.pid. -/
theorem get_scope_always_task (k : Kernel) (args : Args) (argv : List String)
    (childPid : Int) (forkOk execOk : Bool)
    (hc : args.cmd = Cmd.get) (hf : args.from_pid ≠ 0) :
    kernelCalls (run k args argv childPid forkOk execOk).main.events =
      [⟨KernelAction.get, args.from_pid, Scope.pid⟩] := by
  have hv := verify_arguments_get_ok args hc hf
  simp only [run, hv, hc]
  exact run_get_kernelCalls k args

/-- C9 witness: a Get for pid 9 with user scope tgid still queries at
Scope.pid. -/
theorem get_scope_always_task_witness :
    argsGetTgid.cmd = Cmd.get ∧ argsGetTgid.from_pid ≠ 0 ∧
    argsGetTgid.type = Scope.tgid ∧
    kernelCalls (run kCookie7 argsGetTgid [] 0 true true).main.events =
      [⟨KernelAction.get, argsGetTgid.from_pid, Scope.pid⟩] :=
  ⟨rfl, by decide, rfl,
    get_scope_always_task kCookie7 argsGetTgid [] 0 true true rfl (by decide)⟩

/-- C3 counterexample: for `get` on pid 1234 when the kernel GET succeeds
with cookie 0, the "doesn't have a core scheduling cookie" line is written
by printf to stdout (an `Event.out`), and the run emits no stderr event at
all — refuting the claim that the diagnostic goes to stderr. -/
theorem get_no_cookie_stdout_counterexample :
    run kTriv argsGet1234 [] 0 true true =
      ⟨⟨[Event.kcall ⟨KernelAction.get, 1234, Scope.pid⟩,
         Event.out "pid 1234 doesn't have a core scheduling cookie\n"],
        some 1⟩, none⟩ ∧
    (run kTriv argsGet1234 [] 0 true true).main.events.all
      (fun e => isErrEvent e = false) = true := by decide

/-- C3 amended: for a Get whose kernel GET succeeds, a zero cookie makes the
program print "pid N doesn't have a core scheduling cookie" to stdout (not
stderr) and exit with status 1, with no CREATE, PULL or PUSH issued (the
trace holds exactly the one GET); a non-zero cookie is printed to stdout in
hexadecimal, prefixed by a sentence naming the source task, with exit
status 0. -/
theorem run_get_reports (k : Kernel) (args : Args) (argv : List String)
    (childPid : Int) (forkOk execOk : Bool)
    (hc : args.cmd = Cmd.get) (hf : args.from_pid ≠ 0)
    (hok : (k.getRes args.from_pid Scope.pid).1 = 0) :
    ((k.getRes args.from_pid Scope.pid).2 = 0 →
      run k args argv childPid forkOk execOk =
        ⟨⟨[Event.kcall ⟨KernelAction.get, args.from_pid, Scope.pid⟩,
           Event.out ("pid " ++ toString args.from_pid ++
             " doesn't have a core scheduling cookie\n")], some 1⟩, none⟩) ∧
    ((k.getRes args.from_pid Scope.pid).2 ≠ 0 →
      run k args argv childPid forkOk execOk =
        ⟨⟨[Event.kcall ⟨KernelAction.get, args.from_pid, Scope.pid⟩,
           Event.out ("core scheduling cookie of pid " ++ toString args.from_pid ++
             " is 0x" ++ hexStr (k.getRes args.from_pid Scope.pid).2 ++ "\n")],
          some 0⟩, none⟩) := by
  have hv := verify_arguments_get_ok args hc hf
  simp only [run, hv, hc]
  unfold run_get
  rw [core_sched_get_cookie_ok k args.from_pid hok]
  constructor
  · intro h0
    simp [h0]
  · intro h0
    simp [h0]

/-- C3 amended witness: both branches at concrete inputs (kernel with no
cookie for pid 1234; kernel reporting cookie 7). -/
theorem run_get_reports_witness :
    ((kTriv.getRes argsGet1234.from_pid Scope.pid).1 = 0 ∧
      run kTriv argsGet1234 [] 0 true true =
        ⟨⟨[Event.kcall ⟨KernelAction.get, argsGet1234.from_pid, Scope.pid⟩,
           Event.out ("pid " ++ toString argsGet1234.from_pid ++
             " doesn't have a core scheduling cookie\n")], some 1⟩, none⟩) ∧
    ((kCookie7.getRes argsGet1234.from_pid Scope.pid).2 ≠ 0 ∧
      run kCookie7 argsGet1234 [] 0 true true =
        ⟨⟨[Event.kcall ⟨KernelAction.get, argsGet1234.from_pid, Scope.pid⟩,
           Event.out ("core scheduling cookie of pid " ++
             toString argsGet1234.from_pid ++ " is 0x" ++
             hexStr (kCookie7.getRes argsGet1234.from_pid Scope.pid).2 ++ "\n")],
          some 0⟩, none⟩) :=
  ⟨⟨rfl, (run_get_reports kTriv argsGet1234 [] 0 true true rfl (by decide) rfl).1 rfl⟩,
   ⟨by decide, (run_get_reports kCookie7 argsGet1234 [] 0 true true rfl (by decide) rfl).2
      (by decide)⟩⟩

/-- C4: at every prctl call site, a non-zero kernel status makes the process
(or child) that issued the call exit with exactly that status — the
kernel's reported (negated-errno) code passed to exit unchanged.  The eight
conjuncts cover every site: GET (main), CREATE (main), PULL and PUSH (copy
child), and in the exec child PULL (source given), CREATE (no source) and
the reporting GET after either a successful PULL or a successful CREATE. -/
theorem kernel_error_exit (k : Kernel) (args : Args) (argv2 : List String)
    (childPid : Int) (execOk : Bool) :
    ((k.getRes args.from_pid Scope.pid).1 ≠ 0 →
      (run_get k args).exit = some (k.getRes args.from_pid Scope.pid).1) ∧
    (k.createRes args.from_pid args.type ≠ 0 →
      (run_create k args).exit = some (k.createRes args.from_pid args.type)) ∧
    (k.pullRes args.from_pid Scope.pid ≠ 0 →
      (copy_child k args).exit = some (k.pullRes args.from_pid Scope.pid)) ∧
    (k.pullRes args.from_pid Scope.pid = 0 → k.pushRes args.to_pid args.type ≠ 0 →
      (copy_child k args).exit = some (k.pushRes args.to_pid args.type)) ∧
    (args.from_pid ≠ 0 → k.pullRes args.from_pid Scope.pid ≠ 0 →
      (exec_child k args argv2 childPid execOk).exit =
        some (k.pullRes args.from_pid Scope.pid)) ∧
    (args.from_pid = 0 → k.createRes childPid args.type ≠ 0 →
      (exec_child k args argv2 childPid execOk).exit =
        some (k.createRes childPid args.type)) ∧
    (args.from_pid ≠ 0 → k.pullRes args.from_pid Scope.pid = 0 →
      (k.getRes args.from_pid Scope.pid).1 ≠ 0 →
      (exec_child k args argv2 childPid execOk).exit =
        some (k.getRes args.from_pid Scope.pid).1) ∧
    (args.from_pid = 0 → k.createRes childPid args.type = 0 →
      (k.getRes childPid Scope.pid).1 ≠ 0 →
      (exec_child k args argv2 childPid execOk).exit =
        some ((k.getRes childPid Scope.pid).1)) := by
  refine ⟨?_, ?_, ?_, ?_, ?_, ?_, ?_, ?_⟩
  · intro h
    unfold run_get
    rw [core_sched_get_cookie_err k args.from_pid h]
  · intro h
    unfold run_create
    rw [core_sched_create_cookie_err k args.from_pid args.type h]
  · intro h
    unfold copy_child
    rw [core_sched_pull_cookie_err k args.from_pid h]
  · intro h h2
    unfold copy_child
    rw [core_sched_pull_cookie_ok k args.from_pid h,
      core_sched_push_cookie_err k args.to_pid args.type h2]
  · intro hf h
    unfold exec_child
    rw [core_sched_pull_cookie_err k args.from_pid h]
    simp [hf]
  · intro hf h
    unfold exec_child
    rw [core_sched_create_cookie_err k childPid args.type h]
    simp [hf]
  · intro hf h h2
    unfold exec_child
    rw [if_pos hf, core_sched_pull_cookie_ok k args.from_pid h]
    unfold exec_child_tail
    rw [core_sched_get_cookie_err k args.from_pid h2]
  · intro hf h h2
    have hnf : ¬ args.from_pid ≠ 0 := by simp [hf]
    unfold exec_child
    rw [if_neg hnf, core_sched_create_cookie_ok k childPid args.type h]
    unfold exec_child_tail
    rw [core_sched_get_cookie_err k childPid h2]

/-- C4 witness: the GET site with a kernel failing GET with status -3. -/
theorem kernel_error_exit_witness :
    (kGetFail.getRes argsGet1234.from_pid Scope.pid).1 ≠ 0 ∧
    (run_get kGetFail argsGet1234).exit =
      some ((kGetFail.getRes argsGet1234.from_pid Scope.pid).1) :=
  ⟨by decide, (kernel_error_exit kGetFail argsGet1234 [] 0 true).1 (by decide)⟩

/-- C5: in the Copy child, a PULL failure yields exactly the pull call and
its diagnostic, a non-zero exit and no PUSH; and in general a PUSH call can
appear in the child's trace only when the PULL returned status 0. -/
theorem copy_child_no_push_on_pull_failure (k : Kernel) (args : Args) :
    (k.pullRes args.from_pid Scope.pid ≠ 0 →
      copy_child k args =
        ⟨[Event.kcall ⟨KernelAction.pull, args.from_pid, Scope.pid⟩,
          Event.err (pull_fail_msg args.from_pid)],
          some (k.pullRes args.from_pid Scope.pid)⟩ ∧
      (∀ kc : KernelCall, Event.kcall kc ∈ (copy_child k args).events →
        kc.action ≠ KernelAction.push) ∧
      (copy_child k args).exit ≠ some 0) ∧
    (∀ kc : KernelCall, Event.kcall kc ∈ (copy_child k args).events →
      kc.action = KernelAction.push → k.pullRes args.from_pid Scope.pid = 0) := by
  constructor
  · intro h
    have he : copy_child k args =
        ⟨[Event.kcall ⟨KernelAction.pull, args.from_pid, Scope.pid⟩,
          Event.err (pull_fail_msg args.from_pid)],
          some (k.pullRes args.from_pid Scope.pid)⟩ := by
      unfold copy_child
      rw [core_sched_pull_cookie_err k args.from_pid h]
    refine ⟨he, ?_, ?_⟩
    · intro kc hmem
      rw [he] at hmem
      simp only [List.mem_cons, List.not_mem_nil, or_false] at hmem
      rcases hmem with h1 | h1
      · have h3 : kc = ⟨KernelAction.pull, args.from_pid, Scope.pid⟩ := by
          injection h1
        rw [h3]
        simp
      · exact absurd h1.symm (by simp)
    · rw [he]
      simp [h]
  · intro kc hmem hact
    by_contra hp
    have he : copy_child k args =
        ⟨[Event.kcall ⟨KernelAction.pull, args.from_pid, Scope.pid⟩,
          Event.err (pull_fail_msg args.from_pid)],
          some (k.pullRes args.from_pid Scope.pid)⟩ := by
      unfold copy_child
      rw [core_sched_pull_cookie_err k args.from_pid hp]
    rw [he] at hmem
    simp only [List.mem_cons, List.not_mem_nil, or_false] at hmem
    rcases hmem with h1 | h1
    · have h3 : kc = ⟨KernelAction.pull, args.from_pid, Scope.pid⟩ := by
        injection h1
      rw [h3] at hact
      exact absurd hact (by simp)
    · exact absurd h1.symm (by simp)

/-- C5 witness: with a kernel whose PULL fails (-3), the copy child for
(100, 200) issues no PUSH and exits non-zero. -/
theorem copy_child_no_push_on_pull_failure_witness :
    kPullFail.pullRes argsCopy.from_pid Scope.pid ≠ 0 ∧
    copy_child kPullFail argsCopy =
      ⟨[Event.kcall ⟨KernelAction.pull, argsCopy.from_pid, Scope.pid⟩,
        Event.err (pull_fail_msg argsCopy.from_pid)],
        some (kPullFail.pullRes argsCopy.from_pid Scope.pid)⟩ ∧
    (copy_child kPullFail argsCopy).exit ≠ some 0 :=
  ⟨by decide,
    ((copy_child_no_push_on_pull_failure kPullFail argsCopy).1 (by decide)).1,
    ((copy_child_no_push_on_pull_failure kPullFail argsCopy).1 (by decide)).2.2⟩

/-- C6 (code bug): the parent does wait for its single child and, on a
non-zero wait status, prints the "Failed to copy cookie from S to D"
diagnostic naming both pids — but it passes the raw wait status to
error(status, status, ...), i.e. to exit().  A normally exiting failed
child yields wait status code·256: for copy 100→200 under a kernel whose
PULL fails with -3, the child exits -3 (a failure), the parent calls exit
with 64768, and the OS-observable exit status is its low byte 0 — the
child failure IS turned into a parent exit status of 0, contradicting the
claim (and the spec's "never suppressed into a silent success").  The last
conjunct shows this for every child exit code: the low byte of a wait
status is always 0. -/
theorem copy_parent_exit_status_bug :
    (copy_child kPullFail argsCopy).exit = some (-3) ∧
    (copy_child kPullFail argsCopy).exit ≠ some 0 ∧
    waitStatus (exitCode (copy_child kPullFail argsCopy)) = 64768 ∧
    (run kPullFail argsCopy [] 0 true true).main =
      ⟨[Event.err (copy_fail_msg argsCopy.from_pid argsCopy.to_pid)],
        some 64768⟩ ∧
    exitStatusByte 64768 = 0 ∧
    (∀ c : Int, exitStatusByte (waitStatus c) = 0) := by
  refine ⟨by decide, by decide, by decide, by decide, by decide, ?_⟩
  intro c
  unfold exitStatusByte waitStatus
  omega

/-- C7: in every Exec invocation that reaches a successful fork, the parent
exits 0 immediately with an empty trace — it performs no kernel call, does
not wait, and its outcome is independent of the kernel's and the exec's
later behaviour (both are universally quantified). -/
theorem exec_parent_exits_zero (k : Kernel) (args : Args) (argv : List String)
    (childPid : Int) (execOk : Bool)
    (hc : args.cmd = Cmd.exec) (hoff : args.exec_argv_offset ≠ 0) :
    (run k args argv childPid true execOk).main = ⟨[], some 0⟩ := by
  have hv := verify_arguments_exec_ok args hc
  simp only [run, hv, hc]
  unfold core_sched_exec_with_cookie
  simp [hoff]

/-- C7 witness: exec of pid 100's cookie under a kernel whose PULL fails and
an execvp that fails — the parent still exits 0 with no events. -/
theorem exec_parent_exits_zero_witness :
    argsExecSrc.exec_argv_offset ≠ 0 ∧
    (run kPullFail argsExecSrc ["coresched", "prog"] 77 true false).main =
      ⟨[], some 0⟩ :=
  ⟨by decide,
    exec_parent_exits_zero kPullFail argsExecSrc ["coresched", "prog"] 77 false rfl
      (by decide)⟩

/-- C8: in every Exec invocation (command exec, program vector present,
fork succeeding) the forked child is exec_child, and exec_child's trace is
fully characterized: with a non-zero source it PULLs from the source,
otherwise it CREATEs for its own pid; a failure of PULL, CREATE or the
reporting GET terminates the child with that status and no Event.exec ever
appears; when the cookie operations all succeed the child emits the
`spawned pid N with core scheduling cookie 0xH` line to stderr and only
then attempts the image replacement (the Event.exec is last, after the
spawn line). -/
theorem exec_child_resolves_before_exec (k : Kernel) (args : Args)
    (argv : List String) (argv2 : List String) (childPid : Int)
    (execOk : Bool) (hc : args.cmd = Cmd.exec) :
    (args.exec_argv_offset ≠ 0 →
      (run k args argv childPid true execOk).child =
        some (exec_child k args (argv.drop args.exec_argv_offset) childPid execOk)) ∧
    (args.from_pid ≠ 0 → k.pullRes args.from_pid Scope.pid ≠ 0 →
      exec_child k args argv2 childPid execOk =
        ⟨[Event.kcall ⟨KernelAction.pull, args.from_pid, Scope.pid⟩,
          Event.err (pull_fail_msg args.from_pid)],
          some (k.pullRes args.from_pid Scope.pid)⟩) ∧
    (args.from_pid ≠ 0 → k.pullRes args.from_pid Scope.pid = 0 →
      (k.getRes args.from_pid Scope.pid).1 ≠ 0 →
      exec_child k args argv2 childPid execOk =
        ⟨[Event.kcall ⟨KernelAction.pull, args.from_pid, Scope.pid⟩,
          Event.kcall ⟨KernelAction.get, args.from_pid, Scope.pid⟩,
          Event.err (get_fail_msg args.from_pid)],
          some ((k.getRes args.from_pid Scope.pid).1)⟩) ∧
    (args.from_pid ≠ 0 → k.pullRes args.from_pid Scope.pid = 0 →
      (k.getRes args.from_pid Scope.pid).1 = 0 →
      exec_child k args argv2 childPid execOk =
        ⟨[Event.kcall ⟨KernelAction.pull, args.from_pid, Scope.pid⟩,
          Event.kcall ⟨KernelAction.get, args.from_pid, Scope.pid⟩,
          Event.err (spawn_msg childPid (k.getRes args.from_pid Scope.pid).2),
          Event.exec argv2] ++
          (if execOk then [] else [Event.err "Failed to spawn process"]),
          if execOk then none else some (-1)⟩) ∧
    (args.from_pid = 0 → k.createRes childPid args.type ≠ 0 →
      exec_child k args argv2 childPid execOk =
        ⟨[Event.kcall ⟨KernelAction.create, childPid, args.type⟩,
          Event.err (create_fail_msg childPid)],
          some (k.createRes childPid args.type)⟩) ∧
    (args.from_pid = 0 → k.createRes childPid args.type = 0 →
      (k.getRes childPid Scope.pid).1 ≠ 0 →
      exec_child k args argv2 childPid execOk =
        ⟨[Event.kcall ⟨KernelAction.create, childPid, args.type⟩,
          Event.kcall ⟨KernelAction.get, childPid, Scope.pid⟩,
          Event.err (get_fail_msg childPid)],
          some ((k.getRes childPid Scope.pid).1)⟩) ∧
    (args.from_pid = 0 → k.createRes childPid args.type = 0 →
      (k.getRes childPid Scope.pid).1 = 0 →
      exec_child k args argv2 childPid execOk =
        ⟨[Event.kcall ⟨KernelAction.create, childPid, args.type⟩,
          Event.kcall ⟨KernelAction.get, childPid, Scope.pid⟩,
          Event.err (spawn_msg childPid (k.getRes childPid Scope.pid).2),
          Event.exec argv2] ++
          (if execOk then [] else [Event.err "Failed to spawn process"]),
          if execOk then none else some (-1)⟩) := by
  refine ⟨?_, ?_, ?_, ?_, ?_, ?_, ?_⟩
  · intro hoff
    have hv := verify_arguments_exec_ok args hc
    simp only [run, hv, hc]
    unfold core_sched_exec_with_cookie
    simp [hoff]
  · intro hf h
    unfold exec_child
    rw [if_pos hf, core_sched_pull_cookie_err k args.from_pid h]
  · intro hf h h2
    unfold exec_child
    rw [if_pos hf, core_sched_pull_cookie_ok k args.from_pid h]
    unfold exec_child_tail
    rw [core_sched_get_cookie_err k args.from_pid h2]
    simp
  · intro hf h h2
    unfold exec_child
    rw [if_pos hf, core_sched_pull_cookie_ok k args.from_pid h]
    unfold exec_child_tail
    rw [core_sched_get_cookie_ok k args.from_pid h2]
    cases execOk <;> simp
  · intro hf h
    have hnf : ¬ args.from_pid ≠ 0 := by simp [hf]
    unfold exec_child
    rw [if_neg hnf, core_sched_create_cookie_err k childPid args.type h]
  · intro hf h h2
    have hnf : ¬ args.from_pid ≠ 0 := by simp [hf]
    unfold exec_child
    rw [if_neg hnf, core_sched_create_cookie_ok k childPid args.type h]
    unfold exec_child_tail
    rw [core_sched_get_cookie_err k childPid h2]
    simp
  · intro hf h h2
    have hnf : ¬ args.from_pid ≠ 0 := by simp [hf]
    unfold exec_child
    rw [if_neg hnf, core_sched_create_cookie_ok k childPid args.type h]
    unfold exec_child_tail
    rw [core_sched_get_cookie_ok k childPid h2]
    cases execOk <;> simp

/-- C8 witness: an exec with no source under an all-succeeding kernel whose
GET reports cookie 7 — the child creates for its own pid 77, gets, prints
the spawn line, then execs the dropped argument vector. -/
theorem exec_child_resolves_before_exec_witness :
    ((run kCookie7 argsExecNoSrc ["coresched", "prog"] 77 true true).child =
      some (exec_child kCookie7 argsExecNoSrc ["prog"] 77 true)) ∧
    exec_child kCookie7 argsExecNoSrc ["prog"] 77 true =
      ⟨[Event.kcall ⟨KernelAction.create, 77, argsExecNoSrc.type⟩,
        Event.kcall ⟨KernelAction.get, 77, Scope.pid⟩,
        Event.err (spawn_msg 77 (kCookie7.getRes 77 Scope.pid).2),
        Event.exec ["prog"]] ++ ([] : List Event), none⟩ := by
  constructor
  · exact (exec_child_resolves_before_exec kCookie7 argsExecNoSrc
      ["coresched", "prog"] ["prog"] 77 true rfl).1 (by decide)
  · have h := (exec_child_resolves_before_exec kCookie7 argsExecNoSrc
      ["coresched", "prog"] ["prog"] 77 true rfl).2.2.2.2.2.2 rfl rfl rfl
    simpa using h

/-! Helper lemmas about the strtol character scanner. -/

theorem digit_not_space {c : Char} (h : isDigitC c = true) :
    isSpaceC c = false := by
  have h2 : 48 ≤ c.toNat ∧ c.toNat ≤ 57 := by simpa [isDigitC] using h
  simp only [isSpaceC, decide_eq_false_iff_not]
  omega

theorem digit_ne_minus {c : Char} (h : isDigitC c = true) : c ≠ '-' := by
  intro he
  rw [he] at h
  exact absurd h (by decide)

theorem digit_ne_plus {c : Char} (h : isDigitC c = true) : c ≠ '+' := by
  intro he
  rw [he] at h
  exact absurd h (by decide)

theorem dropWhile_space_cons_digit (a : Char) (l : List Char)
    (h : isDigitC a = true) : (a :: l).dropWhile isSpaceC = a :: l := by
  rw [List.dropWhile_cons, digit_not_space h]
  simp

theorem stripSign_cons_digit (a : Char) (l : List Char)
    (h : isDigitC a = true) : stripSign (a :: l) = (false, a :: l) := by
  simp [stripSign, digit_ne_minus h, digit_ne_plus h]

theorem takeWhile_digits (l : List Char) (hd : ∀ c ∈ l, isDigitC c) :
    l.takeWhile isDigitC = l :=
  List.takeWhile_eq_self_iff.mpr hd

theorem dropWhile_digits (l : List Char) (hd : ∀ c ∈ l, isDigitC c) :
    l.dropWhile isDigitC = [] :=
  List.dropWhile_eq_nil_iff.mpr hd

theorem span_digits_append (ds : List Char) (c : Char) (rest : List Char)
    (hd : ∀ d ∈ ds, isDigitC d) (hc : isDigitC c = false) :
    (ds ++ c :: rest).takeWhile isDigitC = ds ∧
      (ds ++ c :: rest).dropWhile isDigitC = c :: rest := by
  induction ds with
  | nil =>
    constructor
    · rw [List.nil_append, List.takeWhile_cons, hc]
      simp
    · rw [List.nil_append, List.dropWhile_cons, hc]
      simp
  | cons a t ih =>
    have ha : isDigitC a = true := hd a (by simp)
    have ht : ∀ d ∈ t, isDigitC d := fun d hdm => hd d (by simp [hdm])
    constructor
    · rw [List.cons_append, List.takeWhile_cons, ha]
      simp [(ih ht).1]
    · rw [List.cons_append, List.dropWhile_cons, ha]
      simp [(ih ht).2]

/-- parse_pid on a non-empty all-digit string: no whitespace or sign is
stripped, the whole string is consumed, and the result is the strtol value
(saturated to long) converted to a 32-bit pid and checked for negativity. -/
theorem parse_pid_digits (s : String) (hne : s.data ≠ [])
    (hd : ∀ c ∈ s.data, isDigitC c) :
    parse_pid s =
      (if toInt32 (clampLong (digitsVal s.data)) < 0
       then PidParse.negativeErr (toInt32 (clampLong (digitsVal s.data)))
       else PidParse.ok (toInt32 (clampLong (digitsVal s.data)))) := by
  obtain ⟨a, t, he⟩ := List.exists_cons_of_ne_nil hne
  have ha : isDigitC a = true := hd a (by rw [he]; simp)
  have hd2 : ∀ c ∈ a :: t, isDigitC c := by rw [← he]; exact hd
  unfold parse_pid
  rw [he]
  simp only [dropWhile_space_cons_digit a t ha, stripSign_cons_digit a t ha,
    takeWhile_digits (a :: t) hd2, dropWhile_digits (a :: t) hd2]
  simp [← he, hne]

/-- C2 counterexample: "4294967295" is a non-empty string consisting
entirely of decimal digits, so the claim requires parsing to succeed with
the standard base-10 value 4294967295; instead the value is truncated to
the 32-bit pid -1 and parsing fails with the "PID -1 cannot be negative"
error. -/
theorem parse_pid_digits_counterexample :
    ("4294967295".data ≠ [] ∧ ∀ c ∈ "4294967295".data, isDigitC c) ∧
    parse_pid "4294967295" = PidParse.negativeErr (-1) ∧
    parse_pid "4294967295" ≠ PidParse.ok 4294967295 := by decide

/-- C2 amended: for non-empty all-digit strings with value below 2^31,
parsing succeeds with the standard base-10 value; a non-empty all-digit
string whose long value truncates to a negative 32-bit pid fails with the
negativity ParseError naming that pid; the empty string fails with the
ParseError naming the input; and any string of one or more digits followed
by a non-digit character fails with the ParseError naming the input.
(Because parse_pid uses strtol, it also accepts leading C-locale
whitespace and one sign, so success is not limited to all-digit strings.) -/
theorem parse_pid_spec (s : String) :
    (s.data ≠ [] → (∀ c ∈ s.data, isDigitC c) → digitsVal s.data < 2 ^ 31 →
      parse_pid s = PidParse.ok (digitsVal s.data)) ∧
    (s.data ≠ [] → (∀ c ∈ s.data, isDigitC c) →
      toInt32 (clampLong (digitsVal s.data)) < 0 →
      parse_pid s = PidParse.negativeErr (toInt32 (clampLong (digitsVal s.data)))) ∧
    (s.data = [] → parse_pid s = PidParse.failedParse s) ∧
    (∀ ds c rest, s.data = ds ++ c :: rest → ds ≠ [] → (∀ d ∈ ds, isDigitC d) →
      isDigitC c = false → parse_pid s = PidParse.failedParse s) := by
  refine ⟨?_, ?_, ?_, ?_⟩
  · intro hne hd hlt
    rw [parse_pid_digits s hne hd]
    have h0 : (0 : Int) ≤ (digitsVal s.data : Int) := Int.natCast_nonneg _
    have h1 : (digitsVal s.data : Int) < 2147483648 := by
      have h2 : digitsVal s.data < 2147483648 := by
        have h3 := hlt
        norm_num at h3
        exact h3
      exact_mod_cast h2
    have he : toInt32 (clampLong (digitsVal s.data)) = (digitsVal s.data : Int) := by
      unfold toInt32 clampLong LONG_MAX LONG_MIN
      split <;> omega
    rw [he, if_neg (by omega)]
  · intro hne hd hneg
    rw [parse_pid_digits s hne hd, if_pos hneg]
  · intro h
    unfold parse_pid
    rw [h]
    simp [stripSign]
  · intro ds c rest hsplit hne hd hc
    obtain ⟨a, t, he⟩ := List.exists_cons_of_ne_nil hne
    subst he
    have ha : isDigitC a = true := hd a (by simp)
    have hspan := span_digits_append (a :: t) c rest hd hc
    have h1 : (a :: (t ++ c :: rest)).takeWhile isDigitC = a :: t := by
      have h3 := hspan.1
      rwa [List.cons_append] at h3
    have h2 : (a :: (t ++ c :: rest)).dropWhile isDigitC = c :: rest := by
      have h3 := hspan.2
      rwa [List.cons_append] at h3
    unfold parse_pid
    simp only [hsplit, List.cons_append,
      dropWhile_space_cons_digit a (t ++ c :: rest) ha,
      stripSign_cons_digit a (t ++ c :: rest) ha, h1, h2]
    simp

/-- C2 amended witness: "42" parses to 42, "" fails naming the input, and
"12x" (digits followed by a non-digit) fails naming the input. -/
theorem parse_pid_spec_witness :
    (("42".data ≠ [] ∧ (∀ c ∈ "42".data, isDigitC c) ∧
        digitsVal "42".data < 2 ^ 31) ∧
      parse_pid "42" = PidParse.ok (digitsVal "42".data)) ∧
    parse_pid "" = PidParse.failedParse "" ∧
    parse_pid "12x" = PidParse.failedParse "12x" :=
  ⟨⟨⟨by decide, by decide, by decide⟩,
      (parse_pid_spec "42").1 (by decide) (by decide) (by decide)⟩,
    (parse_pid_spec "").2.2.1 rfl,
    (parse_pid_spec "12x").2.2.2 ['1', '2'] 'x' [] rfl (by decide) (by decide)
      (by decide)⟩

/-- C10 counterexample: "18446744073709551616" (= 2^64) is a decimal string
whose value exceeds the 32-bit width and whose 32-bit truncation is 0, so
the claim requires it to parse successfully to 0; instead strtol saturates
at LONG_MAX first, which truncates to -1, and parsing fails with the
negativity error. -/
theorem parse_pid_huge_counterexample :
    (∀ c ∈ "18446744073709551616".data, isDigitC c) ∧
    2 ^ 32 ≤ digitsVal "18446744073709551616".data ∧
    toInt32 (digitsVal "18446744073709551616".data) = 0 ∧
    parse_pid "18446744073709551616" = PidParse.negativeErr (-1) ∧
    parse_pid "18446744073709551616" ≠ PidParse.ok 0 := by decide

/-- C10 amended: parse_pid applies no 32-bit range check: for every
non-empty all-digit string whose base-10 value fits in a signed 64-bit
long, the value is truncated to 32 bits (two's complement) before the
negativity check; in particular "4294967296" (= 2^32) parses successfully
to 0, and downstream validation treats pid 0 as an absent task (any
non-exec command with from_pid 0 fails with the source-required message).
For all-digit strings beyond the long range, strtol first saturates the
value to LONG_MAX, which truncates to -1 and fails the negativity check. -/
theorem parse_pid_truncates (s : String) :
    (s.data ≠ [] → (∀ c ∈ s.data, isDigitC c) →
      (digitsVal s.data : Int) ≤ LONG_MAX →
      parse_pid s =
        (if toInt32 (digitsVal s.data) < 0
         then PidParse.negativeErr (toInt32 (digitsVal s.data))
         else PidParse.ok (toInt32 (digitsVal s.data)))) ∧
    parse_pid "4294967296" = PidParse.ok 0 ∧
    (∀ args : Args, args.from_pid = 0 → args.cmd ≠ Cmd.exec →
      verify_arguments args = ValidationResult.error retrieve_requires_source_msg) ∧
    (s.data ≠ [] → (∀ c ∈ s.data, isDigitC c) →
      LONG_MAX < (digitsVal s.data : Int) →
      parse_pid s = PidParse.negativeErr (-1)) := by
  refine ⟨?_, by decide, ?_, ?_⟩
  · intro hne hd hle
    rw [parse_pid_digits s hne hd]
    have h0 : (0 : Int) ≤ (digitsVal s.data : Int) := Int.natCast_nonneg _
    have hcl : clampLong (digitsVal s.data) = (digitsVal s.data : Int) := by
      unfold clampLong LONG_MAX LONG_MIN at *
      omega
    rw [hcl]
  · intro args hf hcmd
    simp [verify_arguments, hf, hcmd]
  · intro hne hd hgt
    rw [parse_pid_digits s hne hd]
    have h0 : (0 : Int) ≤ (digitsVal s.data : Int) := Int.natCast_nonneg _
    have hcl : clampLong (digitsVal s.data) = LONG_MAX := by
      unfold clampLong LONG_MAX LONG_MIN at *
      omega
    rw [hcl]
    decide

/-- C10 amended witness: "4294967296" fits in a long and its truncation
path yields pid 0. -/
theorem parse_pid_truncates_witness :
    ("4294967296".data ≠ [] ∧ (∀ c ∈ "4294967296".data, isDigitC c) ∧
      (digitsVal "4294967296".data : Int) ≤ LONG_MAX) ∧
    parse_pid "4294967296" =
      (if toInt32 (digitsVal "4294967296".data) < 0
       then PidParse.negativeErr (toInt32 (digitsVal "4294967296".data))
       else PidParse.ok (toInt32 (digitsVal "4294967296".data))) :=
  ⟨⟨by decide, by decide, by decide⟩,
    (parse_pid_truncates "4294967296").1 (by decide) (by decide) (by decide)⟩

end Coresched
